import Mathlib

/-!
Verification of the OAuth token-acquisition subsystem of agent-mcp
(`src/agent_mcp/oauth.py`): the file-backed token store
(`FileTokenStorage`), the loopback callback receiver
(`OAuthCallbackServer` and its request handler `do_GET`), and the
orchestrating `ensure_oauth_token` flow.

The Python code is shallowly embedded: each method becomes a total Lean
function; a method that can raise returns `Except String _` where the
error string names the Python exception; the on-disk record file is an
explicit `FileState` value threaded through the storage operations; the
asyncio future of the callback receiver is an explicit `FutureState`.
-/

/-- Model of `mcp.shared.auth.OAuthToken` (the Credential of the spec):
the pydantic model persisted under the `tokens` key. -/
structure OAuthToken where
  access_token : String
  token_type : String
  expires_in : Option Nat
  scope : Option String
  refresh_token : Option String
deriving Repr, DecidableEq

/-- Model of `mcp.shared.auth.OAuthClientInformationFull` (the
ClientRegistration of the spec): persisted under the `client_info` key. -/
structure OAuthClientInformationFull where
  client_id : String
  client_secret : Option String
  redirect_uris : List String
deriving Repr, DecidableEq

/-- Raw JSON value stored under the `tokens` key: either the dump of a
credential (pydantic `model_validate` recovers it exactly) or some other
JSON value on which `model_validate` raises. -/
inductive RawTokens where
  | valid (c : OAuthToken)
  | invalid
deriving Repr, DecidableEq

/-- Raw JSON value stored under the `client_info` key. -/
inductive RawClientInfo where
  | valid (ci : OAuthClientInformationFull)
  | invalid
deriving Repr, DecidableEq

/-- The top-level JSON object of a record file: a dict with the two
optional keys `tokens` and `client_info` (any other keys are never read
or written by the code, so they are not modelled). -/
structure PersistedRecord where
  tokens : Option RawTokens := none
  client_info : Option RawClientInfo := none
deriving Repr, DecidableEq

/-- State of the record file on disk, as distinguished by
`FileTokenStorage._read`: missing (`FileNotFoundError`), unreadable
(`OSError`), invalid JSON text (`json.JSONDecodeError`), valid JSON that
is not an object (so `.get` raises `AttributeError`), or a JSON object. -/
inductive FileContent where
  | absent
  | unreadable
  | malformed
  | jsonNonDict
  | record (r : PersistedRecord)
deriving Repr, DecidableEq

/-- A record file together with its permission bits (`none` when the file
does not exist). -/
structure FileState where
  content : FileContent
  mode : Option Nat := none
deriving Repr, DecidableEq

/-- Result of `FileTokenStorage._read`: the parsed JSON value, collapsed
to whether it is a dict. Caught exceptions already yield the empty dict. -/
inductive ReadResult where
  | dict (r : PersistedRecord)
  | nonDict
deriving Repr, DecidableEq

/-- `FileTokenStorage._read`: `json.loads(path.read_text())` with
`FileNotFoundError`, `json.JSONDecodeError` and `OSError` caught and
replaced by the empty dict `{}`. -/
def fileTokenStorageRead (c : FileContent) : ReadResult :=
  match c with
  | .absent => .dict {}
  | .unreadable => .dict {}
  | .malformed => .dict {}
  | .jsonNonDict => .nonDict
  | .record r => .dict r

/-- `FileTokenStorage._write`: `mkdir` the parent, dump the record as
JSON, `chmod(0o600)`. -/
def fileTokenStorageWrite (r : PersistedRecord) : FileState :=
  { content := .record r, mode := some 0o600 }

/-- `OAuthToken.model_validate(raw)` wrapped in `try/except`: `some` the
credential when the raw value validates, `none` otherwise. -/
def validateTokens : RawTokens → Option OAuthToken
  | .valid c => some c
  | .invalid => none

/-- `OAuthClientInformationFull.model_validate(raw)` wrapped in
`try/except`. -/
def validateClientInfo : RawClientInfo → Option OAuthClientInformationFull
  | .valid ci => some ci
  | .invalid => none

/-- `FileTokenStorage.get_tokens`: `raw = self._read().get("tokens")`
(raises `AttributeError` when `_read` returned a non-dict), then `none`
when the key is missing, else validate with exceptions caught. -/
def get_tokens (fs : FileState) : Except String (Option OAuthToken) :=
  match fileTokenStorageRead fs.content with
  | .nonDict => .error "AttributeError"
  | .dict r =>
    match r.tokens with
    | none => .ok none
    | some raw => .ok (validateTokens raw)

/-- `FileTokenStorage.get_client_info`: same shape as `get_tokens` for
the `client_info` key. -/
def get_client_info (fs : FileState) : Except String (Option OAuthClientInformationFull) :=
  match fileTokenStorageRead fs.content with
  | .nonDict => .error "AttributeError"
  | .dict r =>
    match r.client_info with
    | none => .ok none
    | some raw => .ok (validateClientInfo raw)

/-- `FileTokenStorage.set_tokens`: read the record (`data = self._read()`),
assign `data["tokens"] = tokens.model_dump()` (raises `TypeError` on a
non-dict), write the whole record back. -/
def set_tokens (fs : FileState) (tokens : OAuthToken) : Except String FileState :=
  match fileTokenStorageRead fs.content with
  | .nonDict => .error "TypeError"
  | .dict r => .ok (fileTokenStorageWrite { r with tokens := some (.valid tokens) })

/-- `FileTokenStorage.set_client_info`: read, assign
`data["client_info"] = client_info.model_dump(mode="json")`, write back. -/
def set_client_info (fs : FileState) (ci : OAuthClientInformationFull) : Except String FileState :=
  match fileTokenStorageRead fs.content with
  | .nonDict => .error "TypeError"
  | .dict r => .ok (fileTokenStorageWrite { r with client_info := some (.valid ci) })

/-- The query string of a GET request to the callback server, after
`parse_qs(urlparse(path).query)` and the three `qs.get(...)` lookups.
`parse_qs` maps each present key to a non-empty list of values and omits
keys with blank values, so a missing parameter is `none` and Python
truthiness of a `qs.get` result is "is `some` of a non-empty list". -/
structure Query where
  code : Option (List String) := none
  state : Option (List String) := none
  error : Option (List String) := none
deriving Repr, DecidableEq

/-- Python truthiness of a `qs.get(key)` result: `None` and the empty
list are falsy, a non-empty list is truthy. -/
def truthy : Option (List String) → Bool
  | some (_ :: _) => true
  | _ => false

/-- Python `lst[0]` on a `qs.get` result, used only under a truthiness
guard, so the default is never reached in guarded positions. -/
def first : Option (List String) → String
  | some (x :: _) => x
  | _ => ""

/-- Python `state_list[0] if state_list else None`. -/
def firstOpt : Option (List String) → Option String
  | some (x :: _) => some x
  | _ => none

/-- The string `_SUCCESS_HTML` sent with the 200 response. -/
def SUCCESS_HTML : String :=
  "<!DOCTYPE html>\n<html><head><title>Authentication Successful</title></head>\n<body style=\"font-family:system-ui;text-align:center;padding:3em\">\n<h1>&#x2705; Authentication Successful</h1>\n<p>You can close this tab and return to the terminal.</p>\n</body></html>\n"

/-- The string `_ERROR_HTML.format(error=e)` sent with the 400 responses:
the template with the error text spliced into the paragraph. -/
def ERROR_HTML (e : String) : String :=
  "<!DOCTYPE html>\n<html><head><title>Authentication Failed</title></head>\n<body style=\"font-family:system-ui;text-align:center;padding:3em\">\n<h1>&#x274c; Authentication Failed</h1>\n<p>"
    ++ e ++ "</p>\n</body></html>\n"

/-- The HTTP response the handler writes: status line and body (the
Content-Type header is always `text/html` and is not modelled). -/
structure Response where
  status : Nat
  body : String
deriving Repr, DecidableEq

/-- What the handler schedules on the shared future via
`loop.call_soon_threadsafe`: nothing, `set_result (code, state)`, or
`set_exception (RuntimeError msg)`. -/
inductive FutureAction where
  | keep
  | setResult (code : String) (state : Option String)
  | setException (msg : String)
deriving Repr, DecidableEq

/-- `_Handler.do_GET` of `OAuthCallbackServer`: dispatch on the parsed
query. Error branch first (400, error page, reject the future); then
missing code (400, "Missing code parameter" page, future untouched);
else success (200, success page, resolve the future with
`(code_list[0], state_list[0] if state_list else None)`). -/
def do_GET (q : Query) : Response × FutureAction :=
  if truthy q.error then
    let error_msg := first q.error
    ({ status := 400, body := ERROR_HTML error_msg },
      .setException ("OAuth error: " ++ error_msg))
  else if !truthy q.code then
    ({ status := 400, body := ERROR_HTML "Missing code parameter" }, .keep)
  else
    ({ status := 200, body := SUCCESS_HTML },
      .setResult (first q.code) (firstOpt q.state))

/-- State of the `asyncio.Future` held by `OAuthCallbackServer`. -/
inductive FutureState where
  | pending
  | resolved (code : String) (state : Option String)
  | rejected (msg : String)
deriving Repr, DecidableEq

/-- Effect of a scheduled future action: `set_result` / `set_exception`
transition a pending future; on a future that is already done they raise
`InvalidStateError` inside the event-loop callback, leaving the future
unchanged. -/
def applyAction (f : FutureState) (a : FutureAction) : FutureState :=
  match f, a with
  | .pending, .setResult c s => .resolved c s
  | .pending, .setException m => .rejected m
  | f, _ => f

/-- One inbound GET request processed by the running callback server:
the handler computes the response and the future action, and the action
is applied to the future. -/
def serveRequest (f : FutureState) (q : Query) : FutureState × Response :=
  let (resp, act) := do_GET q
  (applyAction f act, resp)

/-- Flags recording which side effects of `ensure_oauth_token`
happened: whether an `OAuthCallbackServer` was constructed, whether its
`start()` ran, whether the preflight POST was issued, and whether
`stop()` ran. -/
structure FlowEvents where
  receiverConstructed : Bool
  receiverStarted : Bool
  preflightIssued : Bool
  receiverStopped : Bool
deriving Repr, DecidableEq

/-- No side effects: the fast path of `ensure_oauth_token`. -/
def noEvents : FlowEvents :=
  { receiverConstructed := false, receiverStarted := false,
    preflightIssued := false, receiverStopped := false }

/-- All side effects of the slow path, including the `finally` stop. -/
def slowPathEvents : FlowEvents :=
  { receiverConstructed := true, receiverStarted := true,
    preflightIssued := true, receiverStopped := true }

/-- Outcome of the body of the `try` block of `ensure_oauth_token` up to
the preflight POST: the external `OAuthClientProvider` machinery
(discovery, registration, browser authorization, token exchange) either
returns normally or raises, and in either case may have written tokens
through the storage. It is a parameter of the model, not code of this
repository. -/
inductive HandshakeResult where
  | ok (fs : FileState)
  | exn (msg : String) (fs : FileState)

/-- Result of one `ensure_oauth_token` call: the returned access token
or the propagated exception message, the side-effect flags, and the
final record-file state. -/
structure FlowOutcome where
  result : Except String String
  events : FlowEvents
  finalState : FileState

/-- `ensure_oauth_token(server_name, server_url, token_dir)`: consult
`get_tokens`; on a cached credential return its `access_token` with no
receiver and no preflight; otherwise construct and start the receiver,
run the handshake (`handshake` abstracts everything inside the `try`
block up to and including the preflight POST), re-read `get_tokens`,
fail with the "no token was stored" `RuntimeError` if still absent, else
return the stored `access_token`; `stop()` runs in `finally` on every
slow-path exit. -/
def ensure_oauth_token (server_name : String) (fs : FileState)
    (handshake : FileState → HandshakeResult) : FlowOutcome :=
  match get_tokens fs with
  | .error e => { result := .error e, events := noEvents, finalState := fs }
  | .ok (some cached) =>
      { result := .ok cached.access_token, events := noEvents, finalState := fs }
  | .ok none =>
    match handshake fs with
    | .ok fs2 =>
      match get_tokens fs2 with
      | .error e =>
          { result := .error e, events := slowPathEvents, finalState := fs2 }
      | .ok none =>
          { result := .error
              ("OAuth flow completed but no token was stored for " ++ server_name),
            events := slowPathEvents, finalState := fs2 }
      | .ok (some token) =>
          { result := .ok token.access_token, events := slowPathEvents,
            finalState := fs2 }
    | .exn e fs2 =>
        { result := .error e, events := slowPathEvents, finalState := fs2 }

/-- Sample credential used by concrete witnesses. -/
def sampleToken : OAuthToken :=
  { access_token := "cached_tok", token_type := "Bearer",
    expires_in := none, scope := none, refresh_token := none }

/-- Sample credential with every optional field populated. -/
def freshToken : OAuthToken :=
  { access_token := "fresh_tok", token_type := "Bearer",
    expires_in := some 3600, scope := some "mcp", refresh_token := some "rtok" }

/-- Sample client registration used by concrete witnesses. -/
def sampleClientInfo : OAuthClientInformationFull :=
  { client_id := "cid", client_secret := some "csec",
    redirect_uris := ["http://127.0.0.1:8000/callback"] }

/-- Second sample client registration. -/
def freshClientInfo : OAuthClientInformationFull :=
  { client_id := "cid2", client_secret := none,
    redirect_uris := ["http://127.0.0.1:9000/callback"] }

/-- A record file holding both a credential and a client registration. -/
def bothFile : FileState :=
  { content := .record
      { tokens := some (.valid sampleToken),
        client_info := some (.valid sampleClientInfo) },
    mode := some 0o600 }

/-- A missing record file. -/
def emptyFile : FileState := { content := .absent }

/-- Expected file state after `set_tokens bothFile freshToken`. -/
def afterTokensFile : FileState :=
  fileTokenStorageWrite
    { tokens := some (.valid freshToken),
      client_info := some (.valid sampleClientInfo) }

/-- Expected file state after `set_client_info bothFile freshClientInfo`. -/
def afterClientInfoFile : FileState :=
  fileTokenStorageWrite
    { tokens := some (.valid sampleToken),
      client_info := some (.valid freshClientInfo) }

/-- Handshake oracle that touches nothing. -/
def idHandshake : FileState → HandshakeResult := fun fs => .ok fs

/-- Handshake oracle that persists `sampleToken` (as the provider does
through `FileTokenStorage` after the token exchange). -/
def writingHandshake : FileState → HandshakeResult := fun fs =>
  match set_tokens fs sampleToken with
  | .ok fs2 => .ok fs2
  | .error e => .exn e fs

/-- Handshake oracle that raises, as a failed discovery, registration,
authorization or token exchange would. -/
def failingHandshake : FileState → HandshakeResult := fun fs =>
  .exn "HandshakeFailure" fs

/-- Reading back a just-written record yields that record as a dict. -/
theorem fileTokenStorageRead_record (x : PersistedRecord) :
    fileTokenStorageRead (.record x) = .dict x := rfl

/-- Claim C3, counterexample: a record file whose contents are valid JSON
but not a JSON object (for example the array `[1, 2, 3]`) is not
parseable as the expected structure, yet `get_tokens` and
`get_client_info` raise `AttributeError` (from `self._read().get(...)`)
instead of returning absent. -/
theorem get_tokens_raises_on_nondict_json :
    get_tokens { content := .jsonNonDict, mode := some 0o600 } = .error "AttributeError" ∧
    get_client_info { content := .jsonNonDict, mode := some 0o600 } = .error "AttributeError" :=
  ⟨rfl, rfl⟩

/-- Claim C3, amended: for every server name and every state of the
record file among file absent, file unreadable, and file contents not
parseable as JSON, `get_tokens` and `get_client_info` return absent and
never raise an exception to the caller. -/
theorem token_store_soft_fail (fs : FileState)
    (h : fs.content = .absent ∨ fs.content = .unreadable ∨ fs.content = .malformed) :
    get_tokens fs = .ok none ∧ get_client_info fs = .ok none := by
  rcases h with h | h | h <;>
    simp [get_tokens, get_client_info, fileTokenStorageRead, h]

/-- Witness for the amended C3 at a concrete invalid-JSON file. -/
theorem token_store_soft_fail_witness :
    get_tokens { content := .malformed, mode := some 0o600 } = .ok none ∧
    get_client_info { content := .malformed, mode := some 0o600 } = .ok none :=
  token_store_soft_fail { content := .malformed, mode := some 0o600 } (Or.inr (Or.inr rfl))

/-- Claim C8: a completed `set_tokens` round-trips the credential through
`get_tokens` field for field and leaves the `client_info` entry
observably unchanged, and symmetrically a completed `set_client_info`
round-trips the registration and leaves the `tokens` entry unchanged. -/
theorem set_tokens_roundtrip_preserves_sibling
    (fs fs2 fs3 : FileState) (c : OAuthToken) (ci : OAuthClientInformationFull)
    (h1 : set_tokens fs c = .ok fs2) (h2 : set_client_info fs ci = .ok fs3) :
    get_tokens fs2 = .ok (some c) ∧
    get_client_info fs2 = get_client_info fs ∧
    get_client_info fs3 = .ok (some ci) ∧
    get_tokens fs3 = get_tokens fs := by
  cases hr : fileTokenStorageRead fs.content with
  | nonDict =>
      simp only [set_tokens, hr] at h1
      exact Except.noConfusion h1
  | dict r =>
      simp only [set_tokens, hr, Except.ok.injEq] at h1
      simp only [set_client_info, hr, Except.ok.injEq] at h2
      subst h1; subst h2
      refine ⟨rfl, ?_, rfl, ?_⟩
      · simp only [get_client_info, hr, fileTokenStorageWrite, fileTokenStorageRead_record]
      · simp only [get_tokens, hr, fileTokenStorageWrite, fileTokenStorageRead_record]

/-- Witness for C8 at a file already holding both entries. -/
theorem set_tokens_roundtrip_witness :
    set_tokens bothFile freshToken = .ok afterTokensFile ∧
    get_tokens afterTokensFile = .ok (some freshToken) ∧
    get_client_info afterTokensFile = get_client_info bothFile ∧
    set_client_info bothFile freshClientInfo = .ok afterClientInfoFile ∧
    get_client_info afterClientInfoFile = .ok (some freshClientInfo) ∧
    get_tokens afterClientInfoFile = get_tokens bothFile := by
  have h := set_tokens_roundtrip_preserves_sibling bothFile afterTokensFile
    afterClientInfoFile freshToken freshClientInfo rfl rfl
  exact ⟨rfl, h.1, h.2.1, rfl, h.2.2.1, h.2.2.2⟩

/-- Claim C9: after every completed `set_tokens` or `set_client_info`
call the record file carries permission bits 0o600
(owner-read-write-only), for every prior file state and every input. -/
theorem record_file_mode_0600_after_write
    (fs fs2 fs3 : FileState) (c : OAuthToken) (ci : OAuthClientInformationFull) :
    (set_tokens fs c = .ok fs2 → fs2.mode = some 0o600) ∧
    (set_client_info fs ci = .ok fs3 → fs3.mode = some 0o600) := by
  constructor
  · intro h
    cases hr : fileTokenStorageRead fs.content with
    | nonDict =>
        simp only [set_tokens, hr] at h
        exact Except.noConfusion h
    | dict r =>
        simp only [set_tokens, hr, Except.ok.injEq] at h
        subst h; rfl
  · intro h
    cases hr : fileTokenStorageRead fs.content with
    | nonDict =>
        simp only [set_client_info, hr] at h
        exact Except.noConfusion h
    | dict r =>
        simp only [set_client_info, hr, Except.ok.injEq] at h
        subst h; rfl

/-- Witness for C9 at a concrete write over a missing file. -/
theorem record_file_mode_0600_witness :
    (fileTokenStorageWrite { tokens := some (.valid sampleToken) }).mode = some 0o600 :=
  (record_file_mode_0600_after_write emptyFile
    (fileTokenStorageWrite { tokens := some (.valid sampleToken) })
    emptyFile sampleToken sampleClientInfo).1 rfl

/-- Claim C1: when `get_tokens` yields a cached credential,
`ensure_oauth_token` returns that credential's `access_token` and takes
the fast path: no `OAuthCallbackServer` is constructed or started and no
preflight request is issued. -/
theorem ensure_token_cache_hit_no_handshake
    (server_name : String) (fs : FileState)
    (handshake : FileState → HandshakeResult) (c : OAuthToken)
    (h : get_tokens fs = .ok (some c)) :
    (ensure_oauth_token server_name fs handshake).result = .ok c.access_token ∧
    (ensure_oauth_token server_name fs handshake).events = noEvents := by
  simp [ensure_oauth_token, h]

/-- Witness for C1: a pre-seeded cached credential is returned as-is. -/
theorem ensure_token_cache_hit_witness :
    (ensure_oauth_token "myserver" bothFile failingHandshake).result = .ok "cached_tok" ∧
    (ensure_oauth_token "myserver" bothFile failingHandshake).events = noEvents :=
  ensure_token_cache_hit_no_handshake "myserver" bothFile failingHandshake
    sampleToken rfl

/-- Claim C2: when the cache misses and the handshake returns without
raising, `ensure_oauth_token` re-reads `get_tokens`; if the credential is
still absent it fails with the distinct "no token was stored" error, and
if a credential is stored it returns exactly its `access_token`. -/
theorem ensure_token_reread_after_handshake
    (server_name : String) (fs fs2 : FileState)
    (handshake : FileState → HandshakeResult)
    (hmiss : get_tokens fs = .ok none) (hok : handshake fs = .ok fs2) :
    (get_tokens fs2 = .ok none →
      (ensure_oauth_token server_name fs handshake).result =
        .error ("OAuth flow completed but no token was stored for " ++ server_name)) ∧
    (∀ t : OAuthToken, get_tokens fs2 = .ok (some t) →
      (ensure_oauth_token server_name fs handshake).result = .ok t.access_token) := by
  constructor
  · intro habs
    simp only [ensure_oauth_token, hmiss, hok, habs]
  · intro t hstored
    simp only [ensure_oauth_token, hmiss, hok, hstored]

/-- Witness for C2: over a missing file, a handshake that persists
`sampleToken` makes `ensure_oauth_token` return its token, and a
handshake that stores nothing makes it fail with the distinct error. -/
theorem ensure_token_reread_witness :
    (ensure_oauth_token "newserver" emptyFile writingHandshake).result =
      .ok "cached_tok" ∧
    (ensure_oauth_token "empty" emptyFile idHandshake).result =
      .error ("OAuth flow completed but no token was stored for " ++ "empty") := by
  constructor
  · exact (ensure_token_reread_after_handshake "newserver" emptyFile
      (fileTokenStorageWrite { tokens := some (.valid sampleToken) })
      writingHandshake rfl rfl).2 sampleToken rfl
  · exact (ensure_token_reread_after_handshake "empty" emptyFile emptyFile
      idHandshake rfl rfl).1 rfl

/-- Claim C7: on a cache miss, the receiver's `stop()` runs on every
exit path of `ensure_oauth_token`, and any exception the handshake
raises (discovery, registration, authorization or token exchange)
propagates unswallowed as the call's result. -/
theorem handshake_errors_propagate_and_receiver_stopped
    (server_name : String) (fs : FileState)
    (handshake : FileState → HandshakeResult)
    (hmiss : get_tokens fs = .ok none) :
    (ensure_oauth_token server_name fs handshake).events.receiverStopped = true ∧
    (∀ e fs2, handshake fs = .exn e fs2 →
      (ensure_oauth_token server_name fs handshake).result = .error e) := by
  constructor
  · cases hh : handshake fs with
    | ok fs2 =>
        cases ht : get_tokens fs2 with
        | error e => simp only [ensure_oauth_token, hmiss, hh, ht]; rfl
        | ok o =>
            cases o <;> simp only [ensure_oauth_token, hmiss, hh, ht] <;> rfl
    | exn e fs2 => simp only [ensure_oauth_token, hmiss, hh]; rfl
  · intro e fs2 hh
    simp only [ensure_oauth_token, hmiss, hh]

/-- Witness for C7: a failing handshake over a missing file propagates
its error and the receiver is stopped. -/
theorem handshake_errors_propagate_witness :
    (ensure_oauth_token "srv" emptyFile failingHandshake).events.receiverStopped = true ∧
    (ensure_oauth_token "srv" emptyFile failingHandshake).result =
      .error "HandshakeFailure" := by
  have h := handshake_errors_propagate_and_receiver_stopped "srv" emptyFile
    failingHandshake rfl
  exact ⟨h.1, h.2 "HandshakeFailure" emptyFile rfl⟩

/-- Claim C4, counterexample: a GET whose query carries both
`code=AUTHCODE` and `error=access_denied` carries a code parameter, yet
the response is 400 (not 200) and the waiter is rejected, not resolved
with the code. -/
theorem do_GET_code_with_error_not_success :
    (do_GET { code := some ["AUTHCODE"], error := some ["access_denied"] }).1.status ≠ 200 ∧
    (do_GET { code := some ["AUTHCODE"], error := some ["access_denied"] }).2 =
      .setException ("OAuth error: " ++ "access_denied") := by
  constructor
  · intro h
    simp only [do_GET, truthy, if_true] at h
    exact absurd h (by norm_num)
  · rfl

/-- Claim C4, amended: for every GET request whose query carries a code
parameter and no error parameter (with or without a state parameter),
the receiver responds HTTP 200 with the success HTML page and resolves
the waiter exactly with the code and the optional state (absent when the
state parameter is missing). -/
theorem do_GET_code_success (q : Query)
    (hc : truthy q.code = true) (he : truthy q.error = false) :
    (do_GET q).1 = { status := 200, body := SUCCESS_HTML } ∧
    (do_GET q).2 = .setResult (first q.code) (firstOpt q.state) := by
  simp [do_GET, hc, he]

/-- Witness for the amended C4: a code without a state resolves with an
absent state. -/
theorem do_GET_code_success_witness :
    (do_GET { code := some ["CODE_ONLY"] }).1 = { status := 200, body := SUCCESS_HTML } ∧
    (do_GET { code := some ["CODE_ONLY"] }).2 = .setResult "CODE_ONLY" none :=
  do_GET_code_success { code := some ["CODE_ONLY"] } rfl rfl

/-- Claim C5: for every GET request whose query carries an error
parameter, the receiver responds HTTP 400 with the failure page
embedding the error text, and the waiter is rejected with a
`RuntimeError` whose message includes the raw error value. -/
theorem do_GET_error_rejects_waiter (q : Query) (he : truthy q.error = true) :
    (do_GET q).1.status = 400 ∧
    (do_GET q).1.body = ERROR_HTML (first q.error) ∧
    (∃ a b, (do_GET q).1.body = a ++ first q.error ++ b) ∧
    (do_GET q).2 = .setException ("OAuth error: " ++ first q.error) ∧
    (∃ a b, "OAuth error: " ++ first q.error = a ++ first q.error ++ b) := by
  refine ⟨?_, ?_, ?_, ?_, ?_⟩
  · simp [do_GET, he]
  · simp [do_GET, he]
  · refine ⟨"<!DOCTYPE html>\n<html><head><title>Authentication Failed</title></head>\n<body style=\"font-family:system-ui;text-align:center;padding:3em\">\n<h1>&#x274c; Authentication Failed</h1>\n<p>",
      "</p>\n</body></html>\n", ?_⟩
    simp [do_GET, he, ERROR_HTML, String.append_assoc]
  · simp [do_GET, he]
  · exact ⟨"OAuth error: ", "", by simp⟩

/-- Witness for C5 at `error=access_denied`. -/
theorem do_GET_error_rejects_witness :
    (do_GET { error := some ["access_denied"] }).1.status = 400 ∧
    (do_GET { error := some ["access_denied"] }).2 =
      .setException ("OAuth error: " ++ "access_denied") := by
  have h := do_GET_error_rejects_waiter { error := some ["access_denied"] } rfl
  exact ⟨h.1, by simpa [first] using h.2.2.2.1⟩

/-- Claim C6: a GET carrying neither code nor error gets a 400 response
noting the missing parameter and leaves the future pending, and a
subsequent request carrying a code (and no error) still resolves the
waiter with that code. -/
theorem missing_param_keeps_waiting_then_resolves (q1 q2 : Query)
    (h1e : truthy q1.error = false) (h1c : truthy q1.code = false)
    (h2e : truthy q2.error = false) (h2c : truthy q2.code = true) :
    (serveRequest .pending q1).2 =
      { status := 400, body := ERROR_HTML "Missing code parameter" } ∧
    (serveRequest .pending q1).1 = .pending ∧
    (serveRequest (serveRequest .pending q1).1 q2).1 =
      .resolved (first q2.code) (firstOpt q2.state) := by
  have hstep : serveRequest .pending q1 =
      (.pending, { status := 400, body := ERROR_HTML "Missing code parameter" }) := by
    simp [serveRequest, do_GET, h1e, h1c, applyAction]
  refine ⟨by rw [hstep], by rw [hstep], ?_⟩
  rw [hstep]
  simp [serveRequest, do_GET, h2e, h2c, applyAction]

/-- Witness for C6: a bare `GET /callback` followed by
`GET /callback?code=AUTHCODE&state=STATE123`. -/
theorem missing_param_keeps_waiting_witness :
    (serveRequest .pending {}).2 =
      { status := 400, body := ERROR_HTML "Missing code parameter" } ∧
    (serveRequest .pending {}).1 = .pending ∧
    (serveRequest (serveRequest .pending {}).1
        { code := some ["AUTHCODE"], state := some ["STATE123"] }).1 =
      .resolved "AUTHCODE" (some "STATE123") :=
  missing_param_keeps_waiting_then_resolves {}
    { code := some ["AUTHCODE"], state := some ["STATE123"] } rfl rfl rfl rfl

/-- Claim C10: when a query carries both an error and a code parameter,
the error branch takes precedence: 400 response, waiter rejected with
the error, and the waiter is never resolved with the code. -/
theorem do_GET_error_precedes_code (q : Query)
    (he : truthy q.error = true) (hc : truthy q.code = true) :
    (do_GET q).1.status = 400 ∧
    (do_GET q).2 = .setException ("OAuth error: " ++ first q.error) ∧
    (∀ c s, (do_GET q).2 ≠ FutureAction.setResult c s) := by
  refine ⟨by simp [do_GET, he], by simp [do_GET, he], ?_⟩
  intro c s h
  simp [do_GET, he] at h

/-- Witness for C10 at `code=AUTHCODE&error=access_denied`. -/
theorem do_GET_error_precedes_code_witness :
    (do_GET { code := some ["AUTHCODE"], state := none,
              error := some ["access_denied"] }).1.status = 400 ∧
    (do_GET { code := some ["AUTHCODE"], state := none,
              error := some ["access_denied"] }).2 ≠
      FutureAction.setResult "AUTHCODE" none := by
  have h := do_GET_error_precedes_code
    { code := some ["AUTHCODE"], state := none, error := some ["access_denied"] }
    rfl rfl
  exact ⟨h.1, h.2.2 "AUTHCODE" none⟩
